import Mathlib

/-!
Verification of the sniff-then-reassemble streaming pipeline of the
Avify backend (`src/server.js`, with a near-identical second server
variant).  The JavaScript source is embedded shallowly:

* A Node `Readable` stream in paused mode is modelled by `SState`:
  the bytes currently sitting in the internal buffer (`buf`), the chunks
  the producer will still push (`future`), and whether `push(null)` has
  been observed (`ended`).  Bytes are `Nat` values (each < 256 in every
  real run; no arithmetic depends on that bound).
* `stream.read(n)` in paused mode returns `n` bytes when the internal
  buffer holds at least `n`; when the stream has ended it returns
  whatever remains; otherwise it returns `null`.  `await once(stream,
  'readable')` corresponds to one producer step: the next chunk is
  appended to the internal buffer, or end-of-stream is flagged.
* `readHead` is the source's accumulate-until-budget loop.  The loop in
  the source terminates because every iteration either enlarges the
  accumulated head or consumes a producer event; here this measure is
  made explicit as a fuel argument that provably never runs out.
* Strings coming from the HTTP query are Lean `String`s;
  `.toLowerCase()` is embedded as ASCII lowercasing (`jsLower`), the
  only case mapping relevant to the ASCII tokens the server compares
  against.
* `buffer.toString('ascii')` masks the high bit of every byte (Node
  semantics of the `ascii` decoding); `buffer.toString('utf8')
  .toLowerCase().includes('<svg')` is embedded at byte level: ASCII
  bytes decode to themselves in any UTF-8 decode, and Unicode
  lowercasing maps no other code point onto `s`, `v` or `g`, so the
  check holds exactly when the byte sequence `< s v g` occurs
  contiguously, case-insensitively, in the buffer.
-/

/-! ## Stream model and `readHead` -/

/-- State of a paused Node readable stream: internal buffer, chunks still
to be pushed by the producer, and whether `push(null)` has happened. -/
structure SState where
  buf : List Nat
  future : List (List Nat)
  ended : Bool
deriving Repr, DecidableEq

/-- All bytes the stream will ever deliver from this state on. -/
def avail (s : SState) : List Nat := s.buf ++ s.future.flatten

/-- Measure of the `readHead` loop: bytes still wanted, producer events
still pending, plus one for the final end-of-stream observation. -/
def loopMeasure (s : SState) (size : Nat) (acc : List Nat) : Nat :=
  (size - acc.length) + s.future.length + (if s.ended then 0 else 1) + 1

/-- The body of `readHead` from `src/server.js` lines 349–368: repeatedly
`stream.read(size - total)`; on `null`, break when `readableEnded`,
otherwise `await once(stream, 'readable')`.  The fuel argument makes the
termination argument of the source loop explicit; `readHead` below
supplies fuel that provably suffices. -/
def readHeadLoop (fuel : Nat) (s : SState) (size : Nat) (acc : List Nat) :
    List Nat × SState :=
  match fuel with
  | 0 => (acc, s)
  | fuel + 1 =>
    if acc.length < size then
      let n := size - acc.length
      if n ≤ s.buf.length then
        readHeadLoop fuel ⟨s.buf.drop n, s.future, s.ended⟩ size (acc ++ s.buf.take n)
      else if s.ended then
        if s.buf = [] then (acc, s)
        else readHeadLoop fuel ⟨[], s.future, s.ended⟩ size (acc ++ s.buf)
      else
        match s.future with
        | [] => readHeadLoop fuel ⟨s.buf, [], true⟩ size acc
        | c :: rest => readHeadLoop fuel ⟨s.buf ++ c, rest, s.ended⟩ size acc
    else (acc, s)

/-- A fresh paused source whose producer will push exactly `chunks`. -/
def initStream (chunks : List (List Nat)) : SState := ⟨[], chunks, false⟩

/-- `readHead(stream, size)` from `src/server.js`: returns the
accumulated head buffer together with the stream state left behind. -/
def readHead (chunks : List (List Nat)) (size : Nat) : List Nat × SState :=
  readHeadLoop (size + chunks.length + 2) (initStream chunks) size []

/-- The stream the `/convert` handler rebuilds after peeking:
`bodyStream.write(head); sourceStream.pipe(bodyStream)` — the peeked
head followed by every byte the paused source still holds or will
receive (`src/server.js` lines 276–279). -/
def reassembledBytes (chunks : List (List Nat)) : List Nat :=
  let r := readHead chunks 4100
  r.1 ++ avail r.2

/-! ## Signature classification (`detectMagic`) -/

/-- Result of `detectMagic`: `{ valid, kind }` with `kind` one of the
string literals the source returns. -/
structure MagicSignature where
  valid : Bool
  kind : String
deriving Repr, DecidableEq

/-- Node `buffer.toString('ascii')` decodes each byte after masking off
its high bit; this is that mask on one byte. -/
def asciiMask (b : Nat) : Nat := b % 128

/-- ASCII lowering of one byte, the byte-level shadow of JavaScript
`String.prototype.toLowerCase` on characters decoded from these bytes. -/
def jsByteToLower (b : Nat) : Nat := if 65 ≤ b ∧ b ≤ 90 then b + 32 else b

/-- `needle` occurs at the very front of `hay`. -/
def leadsWith : List Nat → List Nat → Bool
  | [], _ => true
  | _ :: _, [] => false
  | a :: as, b :: bs => a == b && leadsWith as bs

/-- `hay` contains `needle` as a contiguous run (JavaScript
`String.prototype.includes` on the code sequences). -/
def hasSub : List Nat → List Nat → Bool
  | [], needle => leadsWith needle []
  | a :: t, needle => leadsWith needle (a :: t) || hasSub t needle

/-- Byte codes of an ASCII string literal used by the classifier. -/
def codes (s : String) : List Nat := s.data.map Char.toNat

/-- `detectMagic(buffer)` from `src/server.js` lines 371–406.  `ascii`
is the Node-`ascii` decode of `buffer.slice(0, 12)` (high bit of every
byte masked off); the SVG test is the byte-level embedding of
`buffer.toString('utf8').toLowerCase().includes('<svg')`. -/
def detectMagic (buffer : List Nat) : MagicSignature :=
  let ascii := (buffer.take 12).map asciiMask
  if 8 ≤ buffer.length ∧ buffer.take 8 = [0x89, 0x50, 0x4e, 0x47, 0x0d, 0x0a, 0x1a, 0x0a] then
    ⟨true, "png"⟩
  else if 3 ≤ buffer.length ∧ buffer.getD 0 0 = 0xff ∧ buffer.getD 1 0 = 0xd8 ∧
      buffer.getD 2 0 = 0xff then
    ⟨true, "jpeg"⟩
  else if ascii.take 4 = codes "RIFF" ∧ (ascii.drop 8).take 4 = codes "WEBP" then
    ⟨true, "webp"⟩
  else if hasSub ((ascii.drop 4).take 8) (codes "ftypavif") = true ∨
      hasSub ((ascii.drop 4).take 8) (codes "ftypavis") = true then
    ⟨true, "avif"⟩
  else if ascii.take 6 = codes "GIF87a" ∨ ascii.take 6 = codes "GIF89a" then
    ⟨true, "gif"⟩
  else if hasSub (buffer.map jsByteToLower) (codes "<svg") = true then
    ⟨true, "svg"⟩
  else
    ⟨false, "unknown"⟩

/-! ## Rule lists: the claimed rules and the rules the code implements -/

/-- A priority-ordered rule table: first predicate that fires fixes the
kind; no match yields `{ unknown, valid := false }`. -/
def firstMatchRules : List ((List Nat → Bool) × String) → List Nat → MagicSignature
  | [], _ => ⟨false, "unknown"⟩
  | (p, k) :: rest, buffer =>
    if p buffer then ⟨true, k⟩ else firstMatchRules rest buffer

/-- The six rules exactly as the specification words them, with the
byte-string comparisons read as exact byte equality: "bytes 0–3 'RIFF'"
means the bytes are the ASCII codes of `RIFF`, and likewise for the
AVIF brand and the GIF prefixes. -/
def specRules : List ((List Nat → Bool) × String) :=
  [ (fun buffer => buffer.take 8 = [0x89, 0x50, 0x4e, 0x47, 0x0d, 0x0a, 0x1a, 0x0a], "png"),
    (fun buffer => buffer.take 3 = [0xff, 0xd8, 0xff], "jpeg"),
    (fun buffer => buffer.take 4 = codes "RIFF" ∧ (buffer.drop 8).take 4 = codes "WEBP", "webp"),
    (fun buffer => hasSub ((buffer.drop 4).take 8) (codes "ftypavif") = true ∨
      hasSub ((buffer.drop 4).take 8) (codes "ftypavis") = true, "avif"),
    (fun buffer => buffer.take 6 = codes "GIF87a" ∨ buffer.take 6 = codes "GIF89a", "gif"),
    (fun buffer => hasSub (buffer.map jsByteToLower) (codes "<svg") = true, "svg") ]

/-- The rules the code actually evaluates: identical to `specRules`
except that rules 3–5 compare the Node-`ascii` decode of the first 12
bytes, which masks off the high bit of every byte. -/
def nodeRules : List ((List Nat → Bool) × String) :=
  [ (fun buffer => 8 ≤ buffer.length ∧
      buffer.take 8 = [0x89, 0x50, 0x4e, 0x47, 0x0d, 0x0a, 0x1a, 0x0a], "png"),
    (fun buffer => 3 ≤ buffer.length ∧ buffer.getD 0 0 = 0xff ∧ buffer.getD 1 0 = 0xd8 ∧
      buffer.getD 2 0 = 0xff, "jpeg"),
    (fun buffer => ((buffer.take 12).map asciiMask).take 4 = codes "RIFF" ∧
      (((buffer.take 12).map asciiMask).drop 8).take 4 = codes "WEBP", "webp"),
    (fun buffer => hasSub ((((buffer.take 12).map asciiMask).drop 4).take 8)
        (codes "ftypavif") = true ∨
      hasSub ((((buffer.take 12).map asciiMask).drop 4).take 8) (codes "ftypavis") = true, "avif"),
    (fun buffer => ((buffer.take 12).map asciiMask).take 6 = codes "GIF87a" ∨
      ((buffer.take 12).map asciiMask).take 6 = codes "GIF89a", "gif"),
    (fun buffer => hasSub (buffer.map jsByteToLower) (codes "<svg") = true, "svg") ]

/-! ## Format policy -/

/-- The transformer option set `applyOutputFormat` installs on the sharp
transformer for one output format. -/
inductive SharpFormatOp where
  | webpOp (quality : Nat) (effort : Nat)
  | pngOp (compressionLevel : Nat) (adaptiveFiltering : Bool)
  | jpegOp (quality : Nat) (mozjpeg : Bool)
  | avifOp (quality : Nat) (effort : Nat)
deriving Repr, DecidableEq

/-- `applyOutputFormat(transformer, format)` from `src/server.js` lines
408–437, as the option set it installs (the `avif` case is also the
`default` branch of the switch). -/
def applyOutputFormat (format : String) : SharpFormatOp :=
  match format with
  | "webp" => .webpOp 80 4
  | "png" => .pngOp 9 true
  | "jpeg" => .jpegOp 82 true
  | "jpg" => .jpegOp 82 true
  | _ => .avifOp 50 4

/-- `contentTypeForFormat(format)` from `src/server.js` lines 439–455
(the `avif` case is also the `default` branch). -/
def contentTypeForFormat (format : String) : String :=
  match format with
  | "webp" => "image/webp"
  | "png" => "image/png"
  | "jpeg" => "image/jpeg"
  | "jpg" => "image/jpeg"
  | _ => "image/avif"

/-- `isAllowedFormat(format)` from `src/server.js` lines 457–469. -/
def isAllowedFormat (format : String) : Bool :=
  match format with
  | "webp" => true
  | "png" => true
  | "jpeg" => true
  | "jpg" => true
  | "avif" => true
  | "svg" => true
  | _ => false

/-- The full sharp transformer configuration built in
`createConvertedStream`: `sharp({ failOnError: false, sequentialRead:
true }).rotate()`, `.withMetadata()` when `keepMetadata`, then the
output format options. -/
structure SharpConfig where
  failOnError : Bool
  sequentialRead : Bool
  rotate : Bool
  withMetadata : Bool
  outputOp : SharpFormatOp
deriving Repr, DecidableEq

/-! ## `createConvertedStream` -/

/-- Outcome of `createConvertedStream`: either a thrown
`HttpError(statusCode, message)` or the returned value — the bytes the
rebuilt body stream will carry, the response content type, and the
transformer the body stream is piped into (`none` on the SVG
passthrough path). -/
inductive ConvertResult where
  | errorRes (statusCode : Nat) (message : String)
  | okRes (streamBytes : List Nat) (contentType : String) (transformer : Option SharpConfig)
deriving Repr, DecidableEq

/-- `createConvertedStream` outcome together with its observable side
effects: whether `sourceStream.destroy()` ran on this path and whether a
sharp transformer was constructed at all. -/
structure ConvertOutcome where
  sourceDestroyed : Bool
  transformerCreated : Bool
  result : ConvertResult
deriving Repr, DecidableEq

/-- `createConvertedStream({ fileStream, format, keepMetadata })` from
`src/server.js` lines 259–309: peek 4100 bytes, classify, reject with
415 on an invalid signature or an SVG target over non-SVG input
(destroying the source, before any transformer exists), otherwise
rebuild the stream and either pass it through (SVG) or pipe it into the
configured transformer. -/
def createConvertedStream (chunks : List (List Nat)) (format : String)
    (keepMetadata : Bool) : ConvertOutcome :=
  let head := (readHead chunks 4100).1
  let magic := detectMagic head
  if magic.valid = false then
    ⟨true, false, .errorRes 415 "Unsupported or invalid image signature"⟩
  else if format = "svg" ∧ magic.kind ≠ "svg" then
    ⟨true, false, .errorRes 415 "SVG output only supported for SVG inputs"⟩
  else if format = "svg" then
    ⟨false, false, .okRes (reassembledBytes chunks) "image/svg+xml" none⟩
  else
    ⟨false, true, .okRes (reassembledBytes chunks) (contentTypeForFormat format)
      (some ⟨false, true, true, keepMetadata, applyOutputFormat format⟩)⟩

/-! ## Query parsing and the `/convert` handler -/

/-- JavaScript `String.prototype.toLowerCase`, restricted to the ASCII
case mapping (the only one that can affect comparisons against the
server's ASCII tokens). -/
def jsLower (s : String) : String := String.mk (s.data.map Char.toLower)

/-- `(request.query?.format || 'avif').toString().toLowerCase()` from
`src/server.js` lines 76–78: a missing parameter and the empty string
(both falsy) fall back to `'avif'`; the result is lowercased. -/
def parseFormat (q : Option String) : String :=
  jsLower (match q with
    | none => "avif"
    | some s => if s = "" then "avif" else s)

/-- `request.query?.keepMetadata?.toString().toLowerCase() === '1'` from
`src/server.js` lines 79–80. -/
def parseKeepMetadata (q : Option String) : Bool :=
  match q with
  | none => false
  | some s => jsLower s == "1"

/-- The `Content-Disposition` header value the handler sets on success
(`src/server.js` line 118). -/
def contentDispositionFor (format : String) : String :=
  "inline; filename=\"converted." ++ format ++ "\""

/-- Body of a `/convert` response: a JSON error object or the converted
byte stream. -/
inductive HandlerBody where
  | errorBody (message : String)
  | streamBody (res : ConvertResult)
deriving Repr, DecidableEq

/-- Observable outcome of one `/convert` request: status code, body,
`Content-Disposition` header if set, and which pieces of work the
handler performed on the way. -/
structure HandlerOutcome where
  status : Nat
  fileRead : Bool
  headPeeked : Bool
  transformerCreated : Bool
  contentDisposition : Option String
  body : HandlerBody
deriving Repr, DecidableEq

/-- The `/convert` route handler from `src/server.js` lines 75–120:
parse the query, reject unknown formats with 400 before
`request.file()` is awaited, reject a missing file with 400, then run
`createConvertedStream` and either relay its `HttpError` or send the
converted stream with content type and disposition headers.  (Fastify
replies default to status 200 on the success path.) -/
def convertHandler (formatQ : Option String) (keepQ : Option String)
    (file : Option (List (List Nat))) : HandlerOutcome :=
  let format := parseFormat formatQ
  let keepMetadata := parseKeepMetadata keepQ
  if isAllowedFormat format = false then
    ⟨400, false, false, false, none,
      .errorBody "Unsupported format. Use one of: avif, webp, png, jpeg, jpg, svg."⟩
  else
    match file with
    | none => ⟨400, true, false, false, none, .errorBody "No file uploaded"⟩
    | some chunks =>
      let converted := createConvertedStream chunks format keepMetadata
      match converted.result with
      | .errorRes statusCode message =>
        ⟨statusCode, true, true, converted.transformerCreated, none, .errorBody message⟩
      | .okRes streamBytes contentType transformer =>
        ⟨200, true, true, converted.transformerCreated,
          some (contentDispositionFor format),
          .streamBody (.okRes streamBytes contentType transformer)⟩

/-! ## Cleanup -/

/-- The destroyed-flags of the two streams the cleanup closure owns:
the multipart source stream and the rebuilt body stream. -/
structure StreamsState where
  sourceDestroyed : Bool
  bodyDestroyed : Bool
deriving Repr, DecidableEq

/-- The `cleanup` closure from `src/server.js` lines 281–284:
`sourceStream.destroy(); bodyStream.destroy()`.  Node's
`stream.destroy()` marks the stream destroyed and is a no-op on an
already-destroyed stream, and this closure never throws. -/
def cleanup (st : StreamsState) : StreamsState :=
  { st with sourceDestroyed := true, bodyDestroyed := true }

/-! ## Stream lemmas -/

theorem readHeadLoop_spec (fuel : Nat) : ∀ (s : SState) (size : Nat) (acc : List Nat),
    (s.ended = true → s.future = []) →
    loopMeasure s size acc ≤ fuel →
    (readHeadLoop fuel s size acc).1 = acc ++ (avail s).take (size - acc.length) ∧
    avail (readHeadLoop fuel s size acc).2 = (avail s).drop (size - acc.length) := by
  induction fuel with
  | zero =>
    intro s size acc _ hm
    simp [loopMeasure] at hm
  | succ fuel ih =>
    intro s size acc hinv hm
    rw [readHeadLoop]
    by_cases h : acc.length < size
    · rw [if_pos h]
      by_cases hb : size - acc.length ≤ s.buf.length
      · rw [if_pos hb]
        have hlen : (acc ++ s.buf.take (size - acc.length)).length = size := by
          simp [List.length_take]
          omega
        have hmeas : loopMeasure ⟨s.buf.drop (size - acc.length), s.future, s.ended⟩
            size (acc ++ s.buf.take (size - acc.length)) ≤ fuel := by
          simp [loopMeasure, hlen] at hm ⊢
          omega
        obtain ⟨h1, h2⟩ := ih ⟨s.buf.drop (size - acc.length), s.future, s.ended⟩ size
          (acc ++ s.buf.take (size - acc.length)) hinv hmeas
        constructor
        · rw [h1, hlen, Nat.sub_self]
          simp [avail, List.take_append_eq_append_take, Nat.sub_eq_zero_of_le hb]
        · rw [h2, hlen, Nat.sub_self]
          simp [avail, List.drop_append_eq_append_drop, Nat.sub_eq_zero_of_le hb]
      · rw [if_neg hb]
        by_cases he : s.ended
        · rw [if_pos he]
          have hfut : s.future = [] := hinv he
          by_cases hbe : s.buf = []
          · rw [if_pos hbe]
            simp [avail, hbe, hfut]
          · rw [if_neg hbe]
            have hbl : 1 ≤ s.buf.length := by
              cases hsb : s.buf with
              | nil => exact absurd hsb hbe
              | cons a t => simp [hsb]
            have hmeas : loopMeasure ⟨[], s.future, s.ended⟩ size (acc ++ s.buf) ≤ fuel := by
              simp [loopMeasure, he] at hm ⊢
              omega
            obtain ⟨h1, h2⟩ := ih ⟨[], s.future, s.ended⟩ size (acc ++ s.buf)
              (fun _ => hfut) hmeas
            have hav : avail ⟨[], s.future, s.ended⟩ = [] := by simp [avail, hfut]
            have havs : avail s = s.buf := by simp [avail, hfut]
            constructor
            · rw [h1, hav, havs, List.take_nil, List.append_nil,
                List.take_of_length_le (show s.buf.length ≤ size - acc.length by omega)]
            · rw [h2, hav, havs, List.drop_nil,
                List.drop_eq_nil_of_le (show s.buf.length ≤ size - acc.length by omega)]
        · rw [if_neg he]
          cases hf : s.future with
          | nil =>
            have hmeas : loopMeasure ⟨s.buf, [], true⟩ size acc ≤ fuel := by
              simp [loopMeasure, he, hf] at hm ⊢
              omega
            obtain ⟨h1, h2⟩ := ih ⟨s.buf, [], true⟩ size acc (fun _ => rfl) hmeas
            refine ⟨?_, ?_⟩
            · rw [h1]
              simp [avail, hf]
            · rw [h2]
              simp [avail, hf]
          | cons c rest =>
            have hmeas : loopMeasure ⟨s.buf ++ c, rest, s.ended⟩ size acc ≤ fuel := by
              simp [loopMeasure, he, hf] at hm ⊢
              omega
            obtain ⟨h1, h2⟩ := ih ⟨s.buf ++ c, rest, s.ended⟩ size acc
              (by intro hc; exact absurd hc (by simp [he])) hmeas
            refine ⟨?_, ?_⟩
            · rw [h1]
              simp [avail, hf]
            · rw [h2]
              simp [avail, hf]
    · rw [if_neg h]
      have hz : size - acc.length = 0 := by omega
      simp [hz]

theorem readHead_spec (chunks : List (List Nat)) (size : Nat) :
    (readHead chunks size).1 = chunks.flatten.take size ∧
    avail (readHead chunks size).2 = chunks.flatten.drop size := by
  have h := readHeadLoop_spec (size + chunks.length + 2) (initStream chunks) size []
    (by intro hc; exact absurd hc (by simp [initStream]))
    (by simp [loopMeasure, initStream])
  simpa [initStream, avail] using h

/-! ## Classifier helper lemmas -/

theorem detectMagic_valid_iff (buffer : List Nat) :
    (detectMagic buffer).valid = true ↔ (detectMagic buffer).kind ≠ "unknown" := by
  simp only [detectMagic]
  split_ifs <;> simp

theorem detectMagic_kind_mem (buffer : List Nat) :
    (detectMagic buffer).kind ∈ ["png", "jpeg", "webp", "avif", "gif", "svg", "unknown"] := by
  simp only [detectMagic]
  split_ifs <;> simp

/-! ## ASCII lowercasing helper lemmas -/

theorem lowerNat_toNat (n : Nat) (h1 : 65 ≤ n) (h2 : n ≤ 90) :
    (Char.ofNat (n + 32)).toNat = n + 32 := by
  interval_cases n <;> decide

theorem toLower_toLower (c : Char) : Char.toLower (Char.toLower c) = Char.toLower c := by
  unfold Char.toLower
  by_cases h : c.toNat ≥ 65 ∧ c.toNat ≤ 90
  · rw [if_pos h]
    have ht : (Char.ofNat (c.toNat + 32)).toNat = c.toNat + 32 := lowerNat_toNat _ h.1 h.2
    rw [if_neg]
    rw [ht]
    omega
  · rw [if_neg h, if_neg h]

theorem toLower_eq_one (c : Char) (h : Char.toLower c = '1') : c = '1' := by
  by_cases hu : c.toNat ≥ 65 ∧ c.toNat ≤ 90
  · exfalso
    have ht : (Char.toLower c).toNat = c.toNat + 32 := by
      unfold Char.toLower
      rw [if_pos hu]
      exact lowerNat_toNat _ hu.1 hu.2
    rw [h] at ht
    have h1 : ('1').toNat = 49 := by decide
    omega
  · unfold Char.toLower at h
    rw [if_neg hu] at h
    exact h

theorem jsLower_idem (s : String) : jsLower (jsLower s) = jsLower s := by
  unfold jsLower
  simp only [List.map_map]
  exact congrArg String.mk (List.map_congr_left (fun c _ => by
    simp only [Function.comp_apply]
    exact toLower_toLower c))

theorem jsLower_eq_empty (s : String) (h : jsLower s = "") : s = "" := by
  unfold jsLower at h
  have hd : s.data.map Char.toLower = [] := by
    have hc := congrArg String.data h
    simpa using hc
  have hnil : s.data = [] := by simpa using hd
  cases s
  simp_all

theorem jsLower_eq_one_iff (s : String) : jsLower s = "1" ↔ s = "1" := by
  constructor
  · intro h
    have hd : s.data.map Char.toLower = ['1'] := by
      have hc := congrArg String.data h
      simpa [jsLower] using hc
    cases hs : s.data with
    | nil => rw [hs] at hd; simp at hd
    | cons c t =>
      rw [hs] at hd
      simp at hd
      obtain ⟨hc, ht⟩ := hd
      have hone : c = '1' := toLower_eq_one c hc
      cases s
      simp_all
  · intro h
    rw [h]
    rfl

/-! ## Claim theorems -/

/-- C1: for every source byte stream — shorter than, equal to, or longer
than the 4100-byte peek budget — the reassembled stream (the peeked head
written first, then the piped remainder of the source) delivers exactly
the byte sequence of the original source, in order, with no gap or
duplication at the head/remainder boundary. -/
theorem claim_C1_round_trip (chunks : List (List Nat)) :
    reassembledBytes chunks = chunks.flatten := by
  obtain ⟨h1, h2⟩ := readHead_spec chunks 4100
  simp only [reassembledBytes]
  rw [h1, h2]
  exact List.take_append_drop 4100 chunks.flatten

/-- C2 counterexample: on the 12-byte buffer whose first byte is `D2`
(not an exact `R`) the code classifies WEBP — Node's `ascii` decode
masks `D2` to `52` = `R` — while the claim's rules, read as exact byte
comparisons, match nothing.  The buffer is within the 4100-byte scope of
the claim. -/
theorem claim_C2_exact_rules_refuted :
    ([0xD2, 0x49, 0x46, 0x46, 0, 0, 0, 0, 0x57, 0x45, 0x42, 0x50] : List Nat).length ≤ 4100 ∧
    detectMagic [0xD2, 0x49, 0x46, 0x46, 0, 0, 0, 0, 0x57, 0x45, 0x42, 0x50] =
      ⟨true, "webp"⟩ ∧
    firstMatchRules specRules [0xD2, 0x49, 0x46, 0x46, 0, 0, 0, 0, 0x57, 0x45, 0x42, 0x50] =
      ⟨false, "unknown"⟩ := by decide

/-- C2 (amended): for every buffer of at most 4100 bytes, `detectMagic`
evaluates the six signature rules in the fixed priority order PNG, JPEG,
WEBP, AVIF, GIF, SVG — the first match fixes the kind with
`valid = true`, no match yields `unknown`/`valid = false` — where the
WEBP, AVIF and GIF string comparisons are made against the Node-`ascii`
decode of the first 12 bytes, i.e. with the high bit of every byte
masked off, rather than against the exact bytes. -/
theorem claim_C2_first_match_amended (buffer : List Nat)
    (h : buffer.length ≤ 4100) :
    detectMagic buffer = firstMatchRules nodeRules buffer := by
  simp only [detectMagic, nodeRules, firstMatchRules, decide_eq_true_eq]

theorem claim_C2_first_match_amended_witness :
    detectMagic [0x47, 0x49, 0x46, 0x38, 0x39, 0x61] =
      firstMatchRules nodeRules [0x47, 0x49, 0x46, 0x38, 0x39, 0x61] :=
  claim_C2_first_match_amended [0x47, 0x49, 0x46, 0x38, 0x39, 0x61] (by decide)

/-- C3: a request whose peeked head classifies `valid = false` fails
with `HttpError 415 "Unsupported or invalid image signature"`; a request
targeting SVG whose (valid) classified kind is not SVG fails with
`HttpError 415 "SVG output only supported for SVG inputs"`; in both
rejection cases the source is destroyed and no transformer is begun (an
SVG-target request over an invalid head also rejects with 415, source
destroyed, no transformer); consequently a request targeting SVG output
succeeds only if the classified kind is SVG. -/
theorem claim_C3_signature_rejection (chunks : List (List Nat)) (format : String)
    (keepMetadata : Bool) :
    ((detectMagic (readHead chunks 4100).1).valid = false →
      createConvertedStream chunks format keepMetadata =
        ⟨true, false, .errorRes 415 "Unsupported or invalid image signature"⟩) ∧
    ((detectMagic (readHead chunks 4100).1).valid = true → format = "svg" →
      (detectMagic (readHead chunks 4100).1).kind ≠ "svg" →
      createConvertedStream chunks format keepMetadata =
        ⟨true, false, .errorRes 415 "SVG output only supported for SVG inputs"⟩) ∧
    (format = "svg" → (detectMagic (readHead chunks 4100).1).kind ≠ "svg" →
      (createConvertedStream chunks format keepMetadata).sourceDestroyed = true ∧
      (createConvertedStream chunks format keepMetadata).transformerCreated = false ∧
      ∃ msg, (createConvertedStream chunks format keepMetadata).result = .errorRes 415 msg) ∧
    (∀ streamBytes contentType transformer,
      (createConvertedStream chunks format keepMetadata).result =
        .okRes streamBytes contentType transformer →
      format = "svg" → (detectMagic (readHead chunks 4100).1).kind = "svg") := by
  simp only [createConvertedStream]
  split_ifs with h1 h2 h3
  · refine ⟨fun _ => rfl, ?_, ?_, ?_⟩
    · intro hvt
      rw [h1] at hvt
      cases hvt
    · intro _ _
      exact ⟨rfl, rfl, ⟨_, rfl⟩⟩
    · intro _ _ _ hres
      cases hres
  · refine ⟨fun hc => absurd hc h1, fun _ _ _ => rfl, fun _ _ => ⟨rfl, rfl, ⟨_, rfl⟩⟩, ?_⟩
    intro _ _ _ hres
    cases hres
  · refine ⟨fun hc => absurd hc h1, ?_, ?_, ?_⟩
    · intro _ hf hk
      exact absurd ⟨hf, hk⟩ h2
    · intro hf hk
      exact absurd ⟨hf, hk⟩ h2
    · intro _ _ _ _ hf
      by_contra hk
      exact h2 ⟨hf, hk⟩
  · refine ⟨fun hc => absurd hc h1, ?_, ?_, ?_⟩
    · intro _ hf _
      exact absurd hf h3
    · intro hf _
      exact absurd hf h3
    · intro _ _ _ _ hf
      exact absurd hf h3

theorem claim_C3_signature_rejection_witness :
    createConvertedStream [[0xff, 0xd8, 0xff]] "svg" false =
      ⟨true, false, .errorRes 415 "SVG output only supported for SVG inputs"⟩ :=
  (claim_C3_signature_rejection [[0xff, 0xd8, 0xff]] "svg" false).2.1
    (by decide) rfl (by decide)

/-- C4: for every finite source stream, `readHead` with budget 4100
terminates with the first `min 4100 total` bytes of the stream: the
result never exceeds 4100 bytes, equals the 4100-byte prefix of the
concatenated chunks, and when the source ends before 4100 bytes the
shorter buffer is returned as final (the loop returns normally rather
than raising). -/
theorem claim_C4_readHead_bounded (chunks : List (List Nat)) :
    (readHead chunks 4100).1.length ≤ 4100 ∧
    (readHead chunks 4100).1 = chunks.flatten.take 4100 ∧
    (chunks.flatten.length ≤ 4100 → (readHead chunks 4100).1 = chunks.flatten) := by
  obtain ⟨h1, _⟩ := readHead_spec chunks 4100
  refine ⟨?_, h1, ?_⟩
  · rw [h1]
    simp [List.length_take]
  · intro hle
    rw [h1, List.take_of_length_le hle]

theorem claim_C4_readHead_bounded_witness :
    (readHead [[1, 2], [3]] 4100).1 = [1, 2, 3] :=
  ((claim_C4_readHead_bounded [[1, 2], [3]]).2.2 (by decide)).trans (by decide)

/-- C5: invoking the cleanup closure any number of times (two or more)
has the same observable effect as invoking it exactly once, and each
invocation leaves both the source stream and the rebuilt body stream
destroyed; the closure is a total function, so double invocation never
throws. -/
theorem claim_C5_cleanup_idempotent (st : StreamsState) (n : Nat) (h : 1 ≤ n) :
    cleanup^[n] st = cleanup st ∧
    (cleanup^[n] st).sourceDestroyed = true ∧
    (cleanup^[n] st).bodyDestroyed = true := by
  have hiter : ∀ m, cleanup^[m + 1] st = cleanup st := by
    intro m
    induction m with
    | zero => simp
    | succ k ihk =>
      rw [Function.iterate_succ_apply', ihk]
      rfl
  obtain ⟨m, rfl⟩ : ∃ m, n = m + 1 := ⟨n - 1, by omega⟩
  rw [hiter m]
  exact ⟨rfl, rfl, rfl⟩

theorem claim_C5_cleanup_idempotent_witness :
    cleanup^[2] ⟨false, false⟩ = cleanup ⟨false, false⟩ ∧
    (cleanup^[2] ⟨false, false⟩).sourceDestroyed = true ∧
    (cleanup^[2] ⟨false, false⟩).bodyDestroyed = true :=
  claim_C5_cleanup_idempotent ⟨false, false⟩ 2 (by decide)

/-- C6: a request carrying a format token outside the allowed set is
rejected with status 400 before any stream I/O: the file field is never
read, no head is peeked (so nothing is classified), and no transformer
is created. -/
theorem claim_C6_unknown_format_rejected (formatQ : Option String)
    (keepQ : Option String) (file : Option (List (List Nat)))
    (h : isAllowedFormat (parseFormat formatQ) = false) :
    convertHandler formatQ keepQ file =
      ⟨400, false, false, false, none,
        .errorBody "Unsupported format. Use one of: avif, webp, png, jpeg, jpg, svg."⟩ := by
  simp only [convertHandler]
  rw [if_pos h]

theorem claim_C6_unknown_format_rejected_witness :
    convertHandler (some "bogus") none none =
      ⟨400, false, false, false, none,
        .errorBody "Unsupported format. Use one of: avif, webp, png, jpeg, jpg, svg."⟩ :=
  claim_C6_unknown_format_rejected (some "bogus") none none (by decide)

/-- C7: the resolved content type and transformer options equal the
static policy table — AVIF: quality 50, effort 4, `image/avif`; WEBP:
quality 80, effort 4, `image/webp`; PNG: compression level 9, adaptive
filtering, `image/png`; JPEG: quality 82, mozjpeg, `image/jpeg` — and
SVG is an accepted token whose (signature-matched) conversions are
passthrough: no transformer, content type `image/svg+xml`. -/
theorem claim_C7_format_policy :
    applyOutputFormat "avif" = .avifOp 50 4 ∧ contentTypeForFormat "avif" = "image/avif" ∧
    applyOutputFormat "webp" = .webpOp 80 4 ∧ contentTypeForFormat "webp" = "image/webp" ∧
    applyOutputFormat "png" = .pngOp 9 true ∧ contentTypeForFormat "png" = "image/png" ∧
    applyOutputFormat "jpeg" = .jpegOp 82 true ∧ contentTypeForFormat "jpeg" = "image/jpeg" ∧
    isAllowedFormat "svg" = true ∧
    (∀ (chunks : List (List Nat)) (keepMetadata : Bool),
      (detectMagic (readHead chunks 4100).1).kind = "svg" →
      createConvertedStream chunks "svg" keepMetadata =
        ⟨false, false, .okRes (reassembledBytes chunks) "image/svg+xml" none⟩) := by
  refine ⟨rfl, rfl, rfl, rfl, rfl, rfl, rfl, rfl, rfl, ?_⟩
  intro chunks keepMetadata hk
  have hv : (detectMagic (readHead chunks 4100).1).valid = true :=
    (detectMagic_valid_iff _).mpr (by rw [hk]; simp)
  simp only [createConvertedStream]
  rw [if_neg (by rw [hv]; simp), if_neg (by rw [hk]; simp)]
  simp

theorem claim_C7_format_policy_witness :
    createConvertedStream [[60, 115, 118, 103]] "svg" false =
      ⟨false, false, .okRes [60, 115, 118, 103] "image/svg+xml" none⟩ :=
  ((claim_C7_format_policy).2.2.2.2.2.2.2.2.2 [[60, 115, 118, 103]] false
    (by decide)).trans (by decide)

/-- C8: the format selector is interpreted case-insensitively and falls
back to the default token `avif` when absent, and the `keepMetadata`
flag is true exactly for the literal string value `1`. -/
theorem claim_C8_query_parsing :
    parseFormat none = "avif" ∧
    (∀ s, parseFormat (some s) = parseFormat (some (jsLower s))) ∧
    (∀ q, parseKeepMetadata q = true ↔ q = some "1") := by
  refine ⟨rfl, ?_, ?_⟩
  · intro s
    by_cases hs : s = ""
    · subst hs
      rfl
    · have hs2 : jsLower s ≠ "" := fun hc => hs (jsLower_eq_empty s hc)
      simp only [parseFormat, if_neg hs, if_neg hs2]
      exact (jsLower_idem s).symm
  · intro q
    cases q with
    | none => simp [parseKeepMetadata]
    | some s =>
      simp only [parseKeepMetadata, beq_iff_eq, Option.some_inj]
      exact jsLower_eq_one_iff s

theorem claim_C8_query_parsing_witness :
    parseFormat (some "WebP") = parseFormat (some (jsLower "WebP")) ∧
    parseKeepMetadata (some "1") = true :=
  ⟨claim_C8_query_parsing.2.1 "WebP", (claim_C8_query_parsing.2.2 (some "1")).mpr rfl⟩

/-- C9: `detectMagic` is total on arbitrary buffers (its embedding is a
total function whose byte accesses are guarded, so every access is in
bounds), and its result satisfies `valid = true` iff the kind is not
`unknown`, with the kind always drawn from exactly the seven-element
set png, jpeg, webp, avif, gif, svg, unknown. -/
theorem claim_C9_detectMagic_invariant (buffer : List Nat) :
    ((detectMagic buffer).valid = true ↔ (detectMagic buffer).kind ≠ "unknown") ∧
    (detectMagic buffer).kind ∈ ["png", "jpeg", "webp", "avif", "gif", "svg", "unknown"] :=
  ⟨detectMagic_valid_iff buffer, detectMagic_kind_mem buffer⟩

theorem claim_C9_detectMagic_invariant_witness :
    (detectMagic [0xff, 0xd8, 0xff]).kind ≠ "unknown" :=
  (claim_C9_detectMagic_invariant [0xff, 0xd8, 0xff]).1.mp (by decide)

/-- C10: the token `jpg` is accepted by the allowed-format check and is
handled identically to `jpeg` — same transformer options (quality 82,
mozjpeg) and same content type `image/jpeg` — differing only in the
`Content-Disposition` filename `converted.jpg`. -/
theorem claim_C10_jpg_alias :
    isAllowedFormat "jpg" = true ∧
    applyOutputFormat "jpg" = applyOutputFormat "jpeg" ∧
    applyOutputFormat "jpg" = .jpegOp 82 true ∧
    contentTypeForFormat "jpg" = contentTypeForFormat "jpeg" ∧
    contentTypeForFormat "jpg" = "image/jpeg" ∧
    contentDispositionFor "jpg" = "inline; filename=\"converted.jpg\"" ∧
    contentDispositionFor "jpeg" = "inline; filename=\"converted.jpeg\"" :=
  ⟨rfl, rfl, rfl, rfl, rfl, by decide, by decide⟩
